import Mathlib

/-!
Shallow embedding of the WhatsApp bot (src/main.py): Python-like JSON values,
the AI gateway `chamar_ia`, the `/chat` classification, and the `/whatsapp`
webhook handler `receber_mensagem_zapi`, with theorems checking the
claims of the specification against these definitions.
-/

namespace WhatsappBot

/-- Python/JSON values as manipulated by main.py (dicts, strings, etc.).
`Py.none` is the Python `None` / JSON `null`. -/
inductive Py where
  | none
  | bool (b : Bool)
  | int (n : Int)
  | str (s : String)
  | list (xs : List Py)
  | dict (fields : List (String × Py))
  deriving Repr

/-- Is the value Python `None` (JSON `null`)? -/
def isPyNone : Py → Bool
  | Py.none => true
  | _ => false

/-- Python truthiness (`if value:`) for the values we model. -/
def pyTruthy : Py → Bool
  | Py.none => false
  | Py.bool b => b
  | Py.int n => n != 0
  | Py.str s => !s.isEmpty
  | Py.list xs => !xs.isEmpty
  | Py.dict fields => !fields.isEmpty

/-- First-match association lookup, modelling Python `dict[k]` / `k in dict`
(JSON-parsed dicts have no duplicate keys). -/
def lookupKey (fields : List (String × Py)) (k : String) : Option Py :=
  match fields with
  | [] => Option.none
  | (k1, v) :: rest => if k1 == k then some v else lookupKey rest k

/-- Models `payload.get(field, {}).get(key)` guarded by `isinstance(..., dict)`:
a missing key or a non-dict container yields Python `None`. -/
def dictGet (v : Py) (k : String) : Py :=
  match v with
  | Py.dict fields => (lookupKey fields k).getD Py.none
  | _ => Py.none

/-! ## AI gateway (`chamar_ia`, main.py lines 76-106) -/

/-- Outcome of the interaction with the external completion endpoint, seen
from inside the `try` block of `chamar_ia`: the request may fail in transport,
return a non-2xx status (raised by `raise_for_status`), have a malformed
envelope (`data["choices"][0]["message"]["content"]` missing), or produce a
content string that either parses as JSON (value `v`) or does not. -/
inductive IAOutcome where
  | transportError
  | statusError
  | envelopeError
  | parsed (v : Py)
  | unparsed (s : String)
  deriving Repr

/-- The Python exceptions `chamar_ia` can see: `httpx.HTTPStatusError`
(caught specifically) and everything else (caught by `except Exception`). -/
inductive PyExn where
  | httpStatusError
  | otherError
  deriving Repr, DecidableEq

/-- Fallback reply for a non-2xx status from the AI endpoint. -/
def fallbackStatus : String :=
  "Desculpe, não consegui obter uma resposta da IA no momento."

/-- Fallback reply for any other failure of the AI call. -/
def fallbackGeneric : String :=
  "Desculpe, ocorreu um erro interno. Tente novamente em instantes."

/-- The body of the `try` block of `chamar_ia`: a transport error or malformed
envelope raises a generic exception, a non-2xx status raises
`httpx.HTTPStatusError`; otherwise the content string is returned, parsed as
JSON when possible (`json.loads` inside its own inner `try`). -/
def chamar_ia_try : IAOutcome → Except PyExn Py
  | IAOutcome.transportError => Except.error PyExn.otherError
  | IAOutcome.statusError => Except.error PyExn.httpStatusError
  | IAOutcome.envelopeError => Except.error PyExn.otherError
  | IAOutcome.parsed v => Except.ok v
  | IAOutcome.unparsed s => Except.ok (Py.str s)

/-- `chamar_ia` (main.py 76-106): the `try`/`except` handlers absorb every
exception into a fixed fallback string, so the function is total. -/
def chamar_ia (o : IAOutcome) : Py :=
  match chamar_ia_try o with
  | Except.ok v => v
  | Except.error PyExn.httpStatusError => Py.str fallbackStatus
  | Except.error PyExn.otherError => Py.str fallbackGeneric

/-! ## `/chat` endpoint (main.py lines 150-197) -/

/-- The four keys required of a lead object (main.py line 184). -/
def requiredKeys : List String := ["nome", "email", "telefone", "servico"]

/-- Line 184: `isinstance(resposta, dict) and all(k in resposta for k in
["nome", "email", "telefone", "servico"])` — key presence only. -/
def isLeadResposta : Py → Bool
  | Py.dict fields => requiredKeys.all (fun k => fields.any (fun p => p.1 == k))
  | _ => false

/-- The three branches of the response classification of `/chat` (lines 184-197). -/
inductive ChatClass where
  | lead
  | texto (s : String)
  | unrecognized
  deriving Repr, DecidableEq

/-- Classification of the AI reply value by `/chat`: lead-shaped dict first,
then plain string, else unrecognized. -/
def classify (resposta : Py) : ChatClass :=
  if isLeadResposta resposta then ChatClass.lead
  else
    match resposta with
    | Py.str s => ChatClass.texto s
    | _ => ChatClass.unrecognized

/-- Reply on successful lead insert (line 189). -/
def confirmacaoLead : String :=
  "Orçamento recebido com sucesso! Nossa equipe entrará em contato em breve."

/-- Reply when the lead insert raises (line 192). -/
def problemaLead : String :=
  "Recebi seus dados, mas tive um problema para registrar."

/-- Reply for an AI value that is neither lead-shaped nor a string (line 197). -/
def naoEntendi : String :=
  "Não entendi sua resposta. Poderia reformular?"

/-- The reply string `/chat` returns for a classification, given whether the
lead insert into the `orcamentos` table succeeds. -/
def chatReplyOf (c : ChatClass) (insertLeadOk : Bool) : String :=
  match c with
  | ChatClass.lead => if insertLeadOk then confirmacaoLead else problemaLead
  | ChatClass.texto s => s
  | ChatClass.unrecognized => naoEntendi

/-- The `reply` field of the response of `/chat`, as a function of the AI call
outcome and the lead-insert outcome. -/
def chatEndpointReply (o : IAOutcome) (insertLeadOk : Bool) : String :=
  chatReplyOf (classify (chamar_ia o)) insertLeadOk

/-! ## `/whatsapp` webhook handler (main.py lines 199-302) -/

/-- One history entry `{"role": ..., "content": ...}` as stored in the
`historico` column; content is the Python value placed there by the handler. -/
structure Msg where
  role : String
  content : Py
  deriving Repr

/-- A row of the `historico_conversas` table for one contact; the `historico`
column is stored as JSON text, modelled parsed. Time is in seconds. -/
structure Session where
  historico : List Msg
  lastUpdatedAt : Int
  snoozedUntil : Option Int
  deriving Repr

/-- The parsed webhook payload fields the handler reads: `phone`, `fromMe`,
`text` and `audio` (each any Python value; `Py.none` when absent). -/
structure Payload where
  phone : Py
  fromMe : Py
  text : Py
  audio : Py
  deriving Repr

/-- The environment of one handler run: the clock, the stored session row for
this contact, and the outcome of each external interaction (audio download,
transcription, the self-call to `/chat`, the database writes, the z-api send).
`downloadResult` is the raw bytes (as a string) or `none` on exception;
`transcript` is the transcription or `none` on exception. -/
structure World where
  now : Int
  session : Option Session
  snoozeDbOk : Bool
  downloadResult : Option String
  transcript : Option String
  chatTransportOk : Bool
  iaOut : IAOutcome
  insertLeadOk : Bool
  dbWriteOk : Bool
  sendOk : Bool
  deriving Repr

/-- The HTTP-visible outcomes of the handler: the two `HTTPException(400)` sites
collapse to `badRequest`; an exception escaping the handler (possible only in
the `fromMe` branch, whose database calls are outside the `try`) is
`serverError` (HTTP 500); the other four are the `{"status": "ok", ...}`
bodies of lines 221, 245, 254 and 302. -/
inductive HandlerOutcome where
  | badRequest
  | serverError
  | manualAtivado
  | ignorado
  | modoManual
  | okResp
  deriving Repr, DecidableEq

/-- The `status` field of the JSON body sent back to the webhook caller
(`none` for the two failure statuses, which carry no `status: ok` body). -/
def respostaStatus : HandlerOutcome → Option String
  | HandlerOutcome.badRequest => Option.none
  | HandlerOutcome.serverError => Option.none
  | _ => some "ok"

/-- Everything observable about one handler run: the HTTP outcome, the session
row afterwards, whether the session table was read, whether the audio was
downloaded / transcription attempted, the effective message content
(`conteudo_processar`), whether the `/chat` self-call (the AI call) was made
and with which message and history, and the text sent via z-api (if any). -/
structure HandlerResult where
  response : HandlerOutcome
  store : Option Session
  sessionRead : Bool
  downloadAttempted : Bool
  transcriptionAttempted : Bool
  effective : Py
  aiCalled : Bool
  chatMessage : Option Py
  chatHistory : Option (List Msg)
  sent : Option String
  deriving Repr

/-- 30 minutes, the snooze window (line 212), in seconds. -/
def snoozeSegundos : Int := 30 * 60

/-- 24 hours, the history expiry window (line 255), in seconds. -/
def horas24 : Int := 24 * 60 * 60

/-- Placeholder when transcription fails or is empty (line 240). -/
def erroTranscricao : String :=
  "[Não foi possível transcrever o áudio. Peça para o usuário repetir.]"

/-- Placeholder when the audio download fails or is empty (line 242). -/
def erroDownload : String :=
  "[Houve um erro ao baixar o áudio. Peça para o usuário reenviar.]"

/-- Default reply when the body returned by `/chat` has no `reply` field (line 270). -/
def semResposta : String := "Não consegui gerar uma resposta."

/-- Python `xs[-20:]`: the last `n` elements of a list. -/
def takeLast (n : Nat) (xs : List α) : List α := xs.drop (xs.length - n)

/-- `conteudo_processar` (lines 223-242): a truthy `text.message` wins;
otherwise a truthy `audio.audioUrl` triggers download and transcription, with
fixed placeholders for each failure mode (Python truthiness: empty bytes or an
empty transcript count as failure); otherwise Python `None`. -/
def processarConteudo (w : World) (p : Payload) : Py :=
  let textoDaMensagem := dictGet p.text "message"
  let audioUrl := dictGet p.audio "audioUrl"
  if pyTruthy textoDaMensagem then textoDaMensagem
  else if pyTruthy audioUrl then
    match w.downloadResult with
    | some bs =>
      if bs.isEmpty then Py.str erroDownload
      else
        match w.transcript with
        | some t => if t.isEmpty then Py.str erroTranscricao else Py.str t
        | Option.none => Py.str erroTranscricao
    | Option.none => Py.str erroDownload
  else Py.none

/-- Was the download step entered (audio branch of lines 230-242)? -/
def tentouDownload (p : Payload) : Bool :=
  !pyTruthy (dictGet p.text "message") && pyTruthy (dictGet p.audio "audioUrl")

/-- Was transcription attempted (download produced truthy bytes, line 233)? -/
def tentouTranscricao (w : World) (p : Payload) : Bool :=
  tentouDownload p &&
    (match w.downloadResult with
     | some bs => !bs.isEmpty
     | Option.none => false)

/-- Line 253: `resultado["snoozed_until"] and resultado["snoozed_until"] >
datetime.now(timezone.utc)` — an active snooze on the stored row. -/
def snoozeAtivo (w : World) : Bool :=
  match w.session with
  | some s =>
    match s.snoozedUntil with
    | some t => decide (w.now < t)
    | Option.none => false
  | Option.none => false

/-- Lines 251-258: the working history — the stored history when the row was
updated less than 24 hours ago, empty otherwise (expired) or when no row
exists. The stored row itself is not touched here. -/
def historicoRecuperado (w : World) : List Msg :=
  match w.session with
  | some s =>
    if w.now - s.lastUpdatedAt < horas24 then s.historico else []
  | Option.none => []

/-- The `fromMe` branch (lines 211-221): select then update `snoozed_until`
(history and `last_updated_at` untouched), or insert a fresh row with empty
history; these database calls sit OUTSIDE the `try` of the handler, so a database
failure here escapes as an unhandled exception (HTTP 500). -/
def fluxoFromMe (w : World) : HandlerResult :=
  if w.snoozeDbOk then
    let novoStore :=
      match w.session with
      | some s => some { s with snoozedUntil := some (w.now + snoozeSegundos) }
      | Option.none =>
        some { historico := [], lastUpdatedAt := w.now,
               snoozedUntil := some (w.now + snoozeSegundos) }
    { response := HandlerOutcome.manualAtivado, store := novoStore,
      sessionRead := true, downloadAttempted := false,
      transcriptionAttempted := false, effective := Py.none, aiCalled := false,
      chatMessage := Option.none, chatHistory := Option.none,
      sent := Option.none }
  else
    { response := HandlerOutcome.serverError, store := w.session,
      sessionRead := true, downloadAttempted := false,
      transcriptionAttempted := false, effective := Py.none, aiCalled := false,
      chatMessage := Option.none, chatHistory := Option.none,
      sent := Option.none }

/-- Lines 260-297: the `/chat` self-call and its aftermath. A transport/status
failure of the self-call raises inside the `try` and is absorbed (nothing
written, nothing sent). On success the reply is what `/chat` computes; the
user/assistant pair is appended, the history truncated to the last 20 entries
and upserted with `snoozed_until` cleared; a database failure aborts before
the send; the send outcome never changes the response. -/
def fluxoChat (w : World) (p : Payload) (conteudo : Py) : HandlerResult :=
  if w.chatTransportOk then
    let mensagemResposta := chatEndpointReply w.iaOut w.insertLeadOk
    let historicoAtualizado := historicoRecuperado w ++
      [{ role := "user", content := conteudo },
       { role := "assistant", content := Py.str mensagemResposta }]
    if w.dbWriteOk then
      { response := HandlerOutcome.okResp,
        store := some { historico := takeLast 20 historicoAtualizado,
                        lastUpdatedAt := w.now, snoozedUntil := Option.none },
        sessionRead := true, downloadAttempted := tentouDownload p,
        transcriptionAttempted := tentouTranscricao w p, effective := conteudo,
        aiCalled := true, chatMessage := some conteudo,
        chatHistory := some (historicoRecuperado w),
        sent := if w.sendOk then some mensagemResposta else Option.none }
    else
      { response := HandlerOutcome.okResp, store := w.session,
        sessionRead := true, downloadAttempted := tentouDownload p,
        transcriptionAttempted := tentouTranscricao w p, effective := conteudo,
        aiCalled := true, chatMessage := some conteudo,
        chatHistory := some (historicoRecuperado w), sent := Option.none }
  else
    { response := HandlerOutcome.okResp, store := w.session,
      sessionRead := true, downloadAttempted := tentouDownload p,
      transcriptionAttempted := tentouTranscricao w p, effective := conteudo,
      aiCalled := true, chatMessage := some conteudo,
      chatHistory := some (historicoRecuperado w), sent := Option.none }

/-- `receber_mensagem_zapi` (main.py 199-302) on a parsed payload: missing or
falsy `phone` → 400; truthy `fromMe` → snooze branch; no effective content →
ignored; active snooze → manual mode, nothing else happens; otherwise the
`/chat` flow. -/
def receber_mensagem_zapi (w : World) (p : Payload) : HandlerResult :=
  if !pyTruthy p.phone then
    { response := HandlerOutcome.badRequest, store := w.session,
      sessionRead := false, downloadAttempted := false,
      transcriptionAttempted := false, effective := Py.none, aiCalled := false,
      chatMessage := Option.none, chatHistory := Option.none,
      sent := Option.none }
  else if pyTruthy p.fromMe then fluxoFromMe w
  else
    let conteudo := processarConteudo w p
    if !pyTruthy conteudo then
      { response := HandlerOutcome.ignorado, store := w.session,
        sessionRead := false, downloadAttempted := tentouDownload p,
        transcriptionAttempted := tentouTranscricao w p, effective := conteudo,
        aiCalled := false, chatMessage := Option.none,
        chatHistory := Option.none, sent := Option.none }
    else if snoozeAtivo w then
      { response := HandlerOutcome.modoManual, store := w.session,
        sessionRead := true, downloadAttempted := tentouDownload p,
        transcriptionAttempted := tentouTranscricao w p, effective := conteudo,
        aiCalled := false, chatMessage := Option.none,
        chatHistory := Option.none, sent := Option.none }
    else fluxoChat w p conteudo

/-- The payload fields the handler reads off a dict-shaped body, each via
`payload.get(...)` (Python `None` when the key is absent). -/
def payloadDe (fields : List (String × Py)) : Payload :=
  { phone := (lookupKey fields "phone").getD Py.none,
    fromMe := (lookupKey fields "fromMe").getD Py.none,
    text := (lookupKey fields "text").getD Py.none,
    audio := (lookupKey fields "audio").getD Py.none }

/-- The endpoint on a raw request body, given as the parsed JSON value (or
`none` when parsing fails). An unparseable body is rejected with 400 by the
parse `try` (lines 204-205). A body that parses to anything other than a JSON
object (a list, string, number, boolean or null) reaches line 207, where
`payload.get("phone")` raises `AttributeError`; that line sits outside both
`try` blocks, so the exception escapes the handler as an unhandled server
error. Only an object-shaped body proceeds into the handler proper. -/
def receber_raw (w : World) (body : Option Py) : HandlerResult :=
  match body with
  | some (Py.dict fields) => receber_mensagem_zapi w (payloadDe fields)
  | some _ =>
    { response := HandlerOutcome.serverError, store := w.session,
      sessionRead := false, downloadAttempted := false,
      transcriptionAttempted := false, effective := Py.none, aiCalled := false,
      chatMessage := Option.none, chatHistory := Option.none,
      sent := Option.none }
  | Option.none =>
    { response := HandlerOutcome.badRequest, store := w.session,
      sessionRead := false, downloadAttempted := false,
      transcriptionAttempted := false, effective := Py.none, aiCalled := false,
      chatMessage := Option.none, chatHistory := Option.none,
      sent := Option.none }

/-! ## Sample inputs -/

/-- A lead-shaped AI reply with all four values present, extra key, shuffled
key order. -/
def amostraLeadOk : Py :=
  Py.dict [("servico", Py.str "site"), ("nome", Py.str "Ana"),
           ("extra", Py.str "x"), ("email", Py.str "a@x.com"),
           ("telefone", Py.str "+1")]

/-- An AI reply carrying all four required keys but a `null` value for
`nome`. -/
def amostraLeadNulo : Py :=
  Py.dict [("nome", Py.none), ("email", Py.str "a@x.com"),
           ("telefone", Py.str "+1"), ("servico", Py.str "site")]

/-- A complete lead-shaped AI reply (the §8 scenario of the spec). -/
def amostraLeadCompleta : Py :=
  Py.dict [("nome", Py.str "Ana"), ("email", Py.str "a@x.com"),
           ("telefone", Py.str "+1"), ("servico", Py.str "site")]

/-- A plain text inbound payload. -/
def cargaTexto : Payload :=
  { phone := Py.str "5511999", fromMe := Py.none,
    text := Py.dict [("message", Py.str "quanto custa?")], audio := Py.none }

/-- A `fromMe: true` payload. -/
def cargaFromMe : Payload :=
  { phone := Py.str "5511999", fromMe := Py.bool true, text := Py.none,
    audio := Py.none }

/-- An audio-only payload. -/
def cargaAudio : Payload :=
  { phone := Py.str "5511999", fromMe := Py.none, text := Py.none,
    audio := Py.dict [("audioUrl", Py.str "https://zapi.example/a.ogg")] }

/-- A payload whose `text.message` is the empty string and which carries no
audio. -/
def cargaVazia : Payload :=
  { phone := Py.str "5511999", fromMe := Py.none,
    text := Py.dict [("message", Py.str "")], audio := Py.none }

/-- The session of a contact snoozed until time 1000. -/
def sessaoSnoozada : Session :=
  { historico := [], lastUpdatedAt := 0, snoozedUntil := some 1000 }

/-- A session with prior history and no snooze, freshly updated at time 50. -/
def sessaoComHistorico : Session :=
  { historico := [{ role := "user", content := Py.str "oi" },
                  { role := "assistant", content := Py.str "olá!" }],
    lastUpdatedAt := 50, snoozedUntil := Option.none }

/-- A world at time 500 whose contact is snoozed until 1000. -/
def mundoSnooze : World :=
  { now := 500, session := some sessaoSnoozada, snoozeDbOk := true,
    downloadResult := Option.none, transcript := Option.none,
    chatTransportOk := true, iaOut := IAOutcome.unparsed "oi",
    insertLeadOk := true, dbWriteOk := true, sendOk := true }

/-- A fully healthy world at time 100 whose AI returns plain text. -/
def mundoTexto : World :=
  { now := 100, session := some sessaoComHistorico, snoozeDbOk := true,
    downloadResult := Option.none, transcript := Option.none,
    chatTransportOk := true, iaOut := IAOutcome.unparsed "custa R$ 100",
    insertLeadOk := true, dbWriteOk := true, sendOk := true }

/-- A healthy world whose AI reply is a complete lead object, over a session
with empty history. -/
def mundoLead : World :=
  { now := 100,
    session := some { historico := [], lastUpdatedAt := 50,
                      snoozedUntil := Option.none },
    snoozeDbOk := true, downloadResult := Option.none,
    transcript := Option.none, chatTransportOk := true,
    iaOut := IAOutcome.parsed amostraLeadCompleta, insertLeadOk := true,
    dbWriteOk := true, sendOk := true }

/-- A world whose session was last updated far more than 24 hours ago. -/
def mundoExpirado : World :=
  { now := 100000, session := some sessaoComHistorico, snoozeDbOk := true,
    downloadResult := Option.none, transcript := Option.none,
    chatTransportOk := true, iaOut := IAOutcome.unparsed "olá",
    insertLeadOk := true, dbWriteOk := true, sendOk := true }

/-- A world whose database is down, exposing the unprotected `fromMe`
branch. -/
def mundoDbQuebrado : World :=
  { now := 0, session := Option.none, snoozeDbOk := false,
    downloadResult := Option.none, transcript := Option.none,
    chatTransportOk := true, iaOut := IAOutcome.unparsed "oi",
    insertLeadOk := true, dbWriteOk := true, sendOk := true }

/-- A world in which the audio download raises. -/
def mundoDownloadFalha : World :=
  { now := 100, session := Option.none, snoozeDbOk := true,
    downloadResult := Option.none, transcript := Option.none,
    chatTransportOk := true, iaOut := IAOutcome.unparsed "entendi",
    insertLeadOk := true, dbWriteOk := true, sendOk := true }

/-- Lead shape as the claim words it: object-shaped, all four required keys
present AND non-null. (Spec-side definition, for comparison with
`isLeadResposta`, which is translated from line 184 of the source.) -/
def leadShapedSpec : Py → Bool
  | Py.dict fields => requiredKeys.all (fun k =>
      match lookupKey fields k with
      | some v => !isPyNone v
      | Option.none => false)
  | _ => false

/-- Does the request body parse as a JSON object (a Python dict, the only
shape on which `payload.get` at line 207 is defined)? -/
def corpoObjeto : Option Py → Bool
  | some (Py.dict _) => true
  | _ => false

/-- Does the request body parse as an object carrying a truthy `phone`? -/
def temPhone : Option Py → Bool
  | some (Py.dict fields) => pyTruthy ((lookupKey fields "phone").getD Py.none)
  | _ => false

/-- Does the request body parse as an object carrying a truthy `fromMe`? -/
def fromMeAtivo : Option Py → Bool
  | some (Py.dict fields) => pyTruthy ((lookupKey fields "fromMe").getD Py.none)
  | _ => false

/-- A raw `fromMe: true` body with a phone. -/
def corpoFromMe : Py :=
  Py.dict [("phone", Py.str "5511999"), ("fromMe", Py.bool true)]

/-- A raw body that parses as a JSON array rather than an object. -/
def corpoLista : Py := Py.list [Py.int 1, Py.int 2, Py.int 3]

/-- A raw healthy text-message body. -/
def corpoTexto : Py :=
  Py.dict [("phone", Py.str "5511999"),
           ("text", Py.dict [("message", Py.str "quanto custa?")])]

/-! ## Helper lemmas about the branches of the handler -/

theorem fluxoChat_effective (w : World) (p : Payload) (c : Py) :
    (fluxoChat w p c).effective = c := by
  unfold fluxoChat
  cases htr : w.chatTransportOk <;> cases hdb : w.dbWriteOk <;> simp

theorem fluxoChat_aiCalled (w : World) (p : Payload) (c : Py) :
    (fluxoChat w p c).aiCalled = true := by
  unfold fluxoChat
  cases htr : w.chatTransportOk <;> cases hdb : w.dbWriteOk <;> simp

theorem fluxoChat_chatMessage (w : World) (p : Payload) (c : Py) :
    (fluxoChat w p c).chatMessage = some c := by
  unfold fluxoChat
  cases htr : w.chatTransportOk <;> cases hdb : w.dbWriteOk <;> simp

theorem fluxoChat_chatHistory (w : World) (p : Payload) (c : Py) :
    (fluxoChat w p c).chatHistory = some (historicoRecuperado w) := by
  unfold fluxoChat
  cases htr : w.chatTransportOk <;> cases hdb : w.dbWriteOk <;> simp

theorem fluxoChat_store_sem_escrita (w : World) (p : Payload) (c : Py)
    (h : w.chatTransportOk = false ∨ w.dbWriteOk = false) :
    (fluxoChat w p c).store = w.session := by
  unfold fluxoChat
  cases htr : w.chatTransportOk <;> cases hdb : w.dbWriteOk <;>
    simp_all

theorem fluxoChat_store_escrita (w : World) (p : Payload) (c : Py)
    (htr : w.chatTransportOk = true) (hdb : w.dbWriteOk = true) :
    (fluxoChat w p c).store =
      some { historico := takeLast 20 (historicoRecuperado w ++
               [{ role := "user", content := c },
                { role := "assistant",
                  content := Py.str (chatEndpointReply w.iaOut w.insertLeadOk) }]),
             lastUpdatedAt := w.now, snoozedUntil := Option.none } := by
  unfold fluxoChat
  rw [htr, hdb]
  simp

/-- Under a truthy phone, falsy `fromMe`, truthy content and no active
snooze, the handler runs the `/chat` flow. -/
theorem receber_fluxoChat (w : World) (p : Payload)
    (hph : pyTruthy p.phone = true) (hfm : pyTruthy p.fromMe = false)
    (hc : pyTruthy (processarConteudo w p) = true)
    (hsz : snoozeAtivo w = false) :
    receber_mensagem_zapi w p = fluxoChat w p (processarConteudo w p) := by
  unfold receber_mensagem_zapi
  rw [hph, hfm]
  simp [hc, hsz]

theorem takeLast_length_le (n : Nat) (xs : List α) :
    (takeLast n xs).length ≤ n := by
  unfold takeLast
  rw [List.length_drop]
  omega

theorem takeLast_isSuffix (n : Nat) (xs : List α) :
    (takeLast n xs).IsSuffix xs := by
  unfold takeLast
  exact List.drop_suffix _ _

/-! ## Claim C5 -/

/-- C5: for every outcome of the external completion call (including transport
errors, non-2xx statuses and malformed envelopes), `chamar_ia` returns a value
to its caller — either the value of the try-block, or, when the try-block raises, a
fixed apologetic fallback string; no failure escapes. -/
theorem c5_ia_absorve_falhas (o : IAOutcome) :
    (∃ v, chamar_ia_try o = Except.ok v ∧ chamar_ia o = v) ∨
    (∃ e, chamar_ia_try o = Except.error e ∧
      (chamar_ia o = Py.str fallbackStatus ∨
       chamar_ia o = Py.str fallbackGeneric)) := by
  cases o with
  | transportError => exact Or.inr ⟨PyExn.otherError, rfl, Or.inr rfl⟩
  | statusError => exact Or.inr ⟨PyExn.httpStatusError, rfl, Or.inl rfl⟩
  | envelopeError => exact Or.inr ⟨PyExn.otherError, rfl, Or.inr rfl⟩
  | parsed v => exact Or.inl ⟨v, rfl, rfl⟩
  | unparsed s => exact Or.inl ⟨Py.str s, rfl, rfl⟩

/-- C5 applied to a concrete non-2xx failure. -/
theorem c5_ia_absorve_falhas_aplicado :
    (∃ v, chamar_ia_try IAOutcome.statusError = Except.ok v ∧
      chamar_ia IAOutcome.statusError = v) ∨
    (∃ e, chamar_ia_try IAOutcome.statusError = Except.error e ∧
      (chamar_ia IAOutcome.statusError = Py.str fallbackStatus ∨
       chamar_ia IAOutcome.statusError = Py.str fallbackGeneric)) :=
  c5_ia_absorve_falhas IAOutcome.statusError

/-! ## Claim C1 -/

/-- C1 counterexample: an AI reply whose `nome` is `null` is still classified
as Lead by the code (and on a successful insert gets the fixed confirmation
reply), although the non-null condition of the claim rejects it. -/
theorem c1_nulo_ainda_lead :
    classify amostraLeadNulo = ChatClass.lead ∧
    chatReplyOf (classify amostraLeadNulo) true = confirmacaoLead ∧
    leadShapedSpec amostraLeadNulo = false :=
  ⟨rfl, rfl, rfl⟩

/-- C1 (amended): classification yields Lead iff the reply is object-shaped
and all four required keys are PRESENT (values unchecked, `null` allowed; key
order irrelevant, extra keys ignored, any missing key disqualifies); and a
Lead classification replies with the fixed confirmation or
received-but-not-registered string according to the insert outcome. -/
theorem c1_lead_por_presenca (r : Py) (insertLeadOk : Bool) :
    (classify r = ChatClass.lead ↔
      ∃ fields, r = Py.dict fields ∧
        ∀ k ∈ requiredKeys, (fields.any fun q => q.1 == k) = true) ∧
    (classify r = ChatClass.lead →
      chatReplyOf (classify r) insertLeadOk =
        if insertLeadOk then confirmacaoLead else problemaLead) := by
  constructor
  · constructor
    · intro h
      have hb : isLeadResposta r = true := by
        by_contra hb
        rw [Bool.not_eq_true] at hb
        unfold classify at h
        rw [hb] at h
        simp only [Bool.false_eq_true, if_false] at h
        cases r <;> simp_all
      cases r with
      | dict fields =>
        refine ⟨fields, rfl, ?_⟩
        unfold isLeadResposta at hb
        exact List.all_eq_true.mp hb
      | none => simp [isLeadResposta] at hb
      | bool b => simp [isLeadResposta] at hb
      | int n => simp [isLeadResposta] at hb
      | str s => simp [isLeadResposta] at hb
      | list xs => simp [isLeadResposta] at hb
    · rintro ⟨fields, rfl, hall⟩
      have hb : isLeadResposta (Py.dict fields) = true := by
        unfold isLeadResposta
        exact List.all_eq_true.mpr hall
      unfold classify
      rw [hb]
      simp
  · intro h
    rw [h]
    rfl

/-- C1 (amended) applied: a reply with the four keys present, shuffled, with
an extra key, is classified Lead. -/
theorem c1_lead_por_presenca_aplicado :
    classify amostraLeadOk = ChatClass.lead :=
  (c1_lead_por_presenca amostraLeadOk true).1.mpr ⟨_, rfl, by decide⟩

/-! ## Claim C2 -/

/-- C2: an inbound message event (truthy phone, not `fromMe`, with effective
content) for a contact whose stored session has `snoozedUntil` strictly in the
future terminates with the manual-mode outcome: no AI call, no outbound
message, and the stored session row unchanged. -/
theorem c2_snooze_modo_manual (w : World) (p : Payload) (s : Session) (t : Int)
    (hph : pyTruthy p.phone = true) (hfm : pyTruthy p.fromMe = false)
    (hc : pyTruthy (processarConteudo w p) = true)
    (hs : w.session = some s) (hsn : s.snoozedUntil = some t)
    (hlt : w.now < t) :
    (receber_mensagem_zapi w p).response = HandlerOutcome.modoManual ∧
    (receber_mensagem_zapi w p).aiCalled = false ∧
    (receber_mensagem_zapi w p).chatMessage = Option.none ∧
    (receber_mensagem_zapi w p).sent = Option.none ∧
    (receber_mensagem_zapi w p).store = w.session := by
  have hsa : snoozeAtivo w = true := by
    unfold snoozeAtivo
    rw [hs]
    simp [hsn, hlt]
  unfold receber_mensagem_zapi
  rw [hph, hfm]
  simp [hc, hsa]

/-- C2 applied to a concrete snoozed contact. -/
theorem c2_snooze_modo_manual_aplicado :
    (receber_mensagem_zapi mundoSnooze cargaTexto).response =
      HandlerOutcome.modoManual ∧
    (receber_mensagem_zapi mundoSnooze cargaTexto).aiCalled = false ∧
    (receber_mensagem_zapi mundoSnooze cargaTexto).chatMessage = Option.none ∧
    (receber_mensagem_zapi mundoSnooze cargaTexto).sent = Option.none ∧
    (receber_mensagem_zapi mundoSnooze cargaTexto).store =
      mundoSnooze.session :=
  c2_snooze_modo_manual mundoSnooze cargaTexto sessaoSnoozada 1000
    rfl rfl rfl rfl rfl (by decide)

/-! ## Claim C3 -/

/-- C3: whenever the handler performs the session write that follows appending
the user/assistant pair, the persisted history is the last-20 truncation of
the appended list, hence has at most 20 entries and is a suffix of the
appended list (oldest entries dropped first). -/
theorem c3_historico_limitado (w : World) (p : Payload)
    (hph : pyTruthy p.phone = true) (hfm : pyTruthy p.fromMe = false)
    (hc : pyTruthy (processarConteudo w p) = true)
    (hsz : snoozeAtivo w = false)
    (htr : w.chatTransportOk = true) (hdb : w.dbWriteOk = true) :
    ∃ s', (receber_mensagem_zapi w p).store = some s' ∧
      s'.historico = takeLast 20 (historicoRecuperado w ++
        [{ role := "user", content := processarConteudo w p },
         { role := "assistant",
           content := Py.str (chatEndpointReply w.iaOut w.insertLeadOk) }]) ∧
      s'.historico.length ≤ 20 ∧
      s'.historico.IsSuffix (historicoRecuperado w ++
        [{ role := "user", content := processarConteudo w p },
         { role := "assistant",
           content := Py.str (chatEndpointReply w.iaOut w.insertLeadOk) }]) := by
  rw [receber_fluxoChat w p hph hfm hc hsz,
    fluxoChat_store_escrita w p (processarConteudo w p) htr hdb]
  exact ⟨_, rfl, rfl, takeLast_length_le _ _, takeLast_isSuffix _ _⟩

/-- C3 applied to a concrete healthy text exchange. -/
theorem c3_historico_limitado_aplicado :
    ∃ s', (receber_mensagem_zapi mundoTexto cargaTexto).store = some s' ∧
      s'.historico = takeLast 20 (historicoRecuperado mundoTexto ++
        [{ role := "user", content := processarConteudo mundoTexto cargaTexto },
         { role := "assistant",
           content := Py.str (chatEndpointReply mundoTexto.iaOut
             mundoTexto.insertLeadOk) }]) ∧
      s'.historico.length ≤ 20 ∧
      s'.historico.IsSuffix (historicoRecuperado mundoTexto ++
        [{ role := "user", content := processarConteudo mundoTexto cargaTexto },
         { role := "assistant",
           content := Py.str (chatEndpointReply mundoTexto.iaOut
             mundoTexto.insertLeadOk) }]) :=
  c3_historico_limitado mundoTexto cargaTexto rfl rfl rfl rfl rfl rfl

/-! ## Claim C4 -/

/-- C4 counterexample: on a lead-classified turn the stored history is NOT
left unchanged — the handler appends the user message and the confirmation
reply like any other turn (here it grows from 0 to 2 entries, the
user/assistant pair of the turn). -/
theorem c4_lead_ainda_anexa :
    classify (chamar_ia mundoLead.iaOut) = ChatClass.lead ∧
    (mundoLead.session.map fun s => s.historico.length) = some 0 ∧
    ((receber_mensagem_zapi mundoLead cargaTexto).store.map
      fun s => s.historico.length) = some 2 ∧
    ((receber_mensagem_zapi mundoLead cargaTexto).store.map
      fun s => s.historico.map Msg.role) = some ["user", "assistant"] ∧
    (receber_mensagem_zapi mundoLead cargaTexto).sent =
      some confirmacaoLead :=
  ⟨rfl, rfl, rfl, rfl, rfl⟩

/-- C4 (amended): a lead-classified turn is persisted like a text turn — the
user message and the fixed reply (confirmation on insert success, the
received-but-not-registered string on failure) are appended to the working
history, truncated to 20, and upserted with the snooze cleared. -/
theorem c4_lead_anexa_e_responde (w : World) (p : Payload)
    (hph : pyTruthy p.phone = true) (hfm : pyTruthy p.fromMe = false)
    (hc : pyTruthy (processarConteudo w p) = true)
    (hsz : snoozeAtivo w = false)
    (htr : w.chatTransportOk = true) (hdb : w.dbWriteOk = true)
    (hlead : classify (chamar_ia w.iaOut) = ChatClass.lead) :
    chatEndpointReply w.iaOut w.insertLeadOk =
      (if w.insertLeadOk then confirmacaoLead else problemaLead) ∧
    (receber_mensagem_zapi w p).store =
      some { historico := takeLast 20 (historicoRecuperado w ++
               [{ role := "user", content := processarConteudo w p },
                { role := "assistant",
                  content := Py.str (chatEndpointReply w.iaOut
                    w.insertLeadOk) }]),
             lastUpdatedAt := w.now, snoozedUntil := Option.none } := by
  constructor
  · unfold chatEndpointReply
    rw [hlead]
    rfl
  · rw [receber_fluxoChat w p hph hfm hc hsz,
      fluxoChat_store_escrita w p (processarConteudo w p) htr hdb]

/-- C4 (amended) applied to the concrete lead world. -/
theorem c4_lead_anexa_e_responde_aplicado :
    chatEndpointReply mundoLead.iaOut mundoLead.insertLeadOk =
      (if mundoLead.insertLeadOk then confirmacaoLead else problemaLead) ∧
    (receber_mensagem_zapi mundoLead cargaTexto).store =
      some { historico := takeLast 20 (historicoRecuperado mundoLead ++
               [{ role := "user",
                  content := processarConteudo mundoLead cargaTexto },
                { role := "assistant",
                  content := Py.str (chatEndpointReply mundoLead.iaOut
                    mundoLead.insertLeadOk) }]),
             lastUpdatedAt := mundoLead.now, snoozedUntil := Option.none } :=
  c4_lead_anexa_e_responde mundoLead cargaTexto rfl rfl rfl rfl rfl rfl rfl

/-! ## Claim C6 -/

/-- C6: when the message reaches the AI step over an existing session, a
session at least 24 hours old contributes an EMPTY working history to the
prompt (and the stored row is untouched unless the successful write at the
end of the turn happens), while a session updated less than 24 hours ago
contributes its stored history verbatim. -/
theorem c6_expiracao (w : World) (p : Payload) (s : Session)
    (hph : pyTruthy p.phone = true) (hfm : pyTruthy p.fromMe = false)
    (hc : pyTruthy (processarConteudo w p) = true)
    (hs : w.session = some s) (hsz : snoozeAtivo w = false) :
    (horas24 ≤ w.now - s.lastUpdatedAt →
      (receber_mensagem_zapi w p).chatHistory = some [] ∧
      ((receber_mensagem_zapi w p).store = w.session ∨
        (w.chatTransportOk = true ∧ w.dbWriteOk = true))) ∧
    (w.now - s.lastUpdatedAt < horas24 →
      (receber_mensagem_zapi w p).chatHistory = some s.historico) := by
  rw [receber_fluxoChat w p hph hfm hc hsz]
  have hrec : historicoRecuperado w =
      if w.now - s.lastUpdatedAt < horas24 then s.historico else [] := by
    unfold historicoRecuperado
    rw [hs]
  constructor
  · intro hold
    constructor
    · rw [fluxoChat_chatHistory, hrec, if_neg (by omega)]
    · cases htr : w.chatTransportOk with
      | false =>
        exact Or.inl (fluxoChat_store_sem_escrita w p _ (Or.inl htr))
      | true =>
        cases hdb : w.dbWriteOk with
        | false =>
          exact Or.inl (fluxoChat_store_sem_escrita w p _ (Or.inr hdb))
        | true => exact Or.inr ⟨rfl, rfl⟩

  · intro hfresh
    rw [fluxoChat_chatHistory, hrec, if_pos hfresh]

/-- C6 applied: the stale session yields an empty working history, the fresh
one its stored history verbatim. -/
theorem c6_expiracao_aplicado :
    ((receber_mensagem_zapi mundoExpirado cargaTexto).chatHistory = some [] ∧
      ((receber_mensagem_zapi mundoExpirado cargaTexto).store =
        mundoExpirado.session ∨
        (mundoExpirado.chatTransportOk = true ∧
         mundoExpirado.dbWriteOk = true))) ∧
    (receber_mensagem_zapi mundoTexto cargaTexto).chatHistory =
      some sessaoComHistorico.historico :=
  ⟨(c6_expiracao mundoExpirado cargaTexto sessaoComHistorico
      rfl rfl rfl rfl rfl).1 (by decide),
   (c6_expiracao mundoTexto cargaTexto sessaoComHistorico
      rfl rfl rfl rfl rfl).2 (by decide)⟩

/-! ## Claim C7 -/

/-- C7: a truthy `fromMe` event with a phone present makes no AI call and
sends nothing; when the session row of the contact exists only its `snoozedUntil`
is set to now + 30 minutes (history and `last_updated_at` untouched), and when
no row exists one is created with empty history and the snooze timestamp.
(The snooze-branch database calls are assumed to succeed; see C8 for what
happens when they do not.) -/
theorem c7_fromMe_snooze (w : World) (p : Payload)
    (hph : pyTruthy p.phone = true) (hfm : pyTruthy p.fromMe = true)
    (hdbok : w.snoozeDbOk = true) :
    (receber_mensagem_zapi w p).aiCalled = false ∧
    (receber_mensagem_zapi w p).chatMessage = Option.none ∧
    (receber_mensagem_zapi w p).sent = Option.none ∧
    (receber_mensagem_zapi w p).response = HandlerOutcome.manualAtivado ∧
    (∀ s, w.session = some s →
      (receber_mensagem_zapi w p).store =
        some { historico := s.historico, lastUpdatedAt := s.lastUpdatedAt,
               snoozedUntil := some (w.now + snoozeSegundos) }) ∧
    (w.session = Option.none →
      (receber_mensagem_zapi w p).store =
        some { historico := [], lastUpdatedAt := w.now,
               snoozedUntil := some (w.now + snoozeSegundos) }) := by
  have hr : receber_mensagem_zapi w p = fluxoFromMe w := by
    unfold receber_mensagem_zapi
    rw [hph, hfm]
    simp
  rw [hr]
  refine ⟨?_, ?_, ?_, ?_, ?_, ?_⟩
  · simp [fluxoFromMe, hdbok]
  · simp [fluxoFromMe, hdbok]
  · simp [fluxoFromMe, hdbok]
  · simp [fluxoFromMe, hdbok]
  · intro s hs
    simp [fluxoFromMe, hdbok, hs]
  · intro hs
    simp [fluxoFromMe, hdbok, hs]

/-- C7 applied: over the existing session `sessaoComHistorico`, only the
snooze timestamp changes. -/
theorem c7_fromMe_snooze_aplicado :
    (receber_mensagem_zapi mundoTexto cargaFromMe).aiCalled = false ∧
    (receber_mensagem_zapi mundoTexto cargaFromMe).sent = Option.none ∧
    (receber_mensagem_zapi mundoTexto cargaFromMe).store =
      some { historico := sessaoComHistorico.historico,
             lastUpdatedAt := sessaoComHistorico.lastUpdatedAt,
             snoozedUntil := some (mundoTexto.now + snoozeSegundos) } :=
  ⟨(c7_fromMe_snooze mundoTexto cargaFromMe rfl rfl rfl).1,
   (c7_fromMe_snooze mundoTexto cargaFromMe rfl rfl rfl).2.2.1,
   (c7_fromMe_snooze mundoTexto cargaFromMe rfl rfl rfl).2.2.2.2.1
     sessaoComHistorico rfl⟩

/-! ## Claim C8 -/

theorem fluxoChat_downloadAttempted (w : World) (p : Payload) (c : Py) :
    (fluxoChat w p c).downloadAttempted = tentouDownload p := by
  unfold fluxoChat
  cases htr : w.chatTransportOk <;> cases hdb : w.dbWriteOk <;> simp

theorem fluxoChat_transcriptionAttempted (w : World) (p : Payload) (c : Py) :
    (fluxoChat w p c).transcriptionAttempted = tentouTranscricao w p := by
  unfold fluxoChat
  cases htr : w.chatTransportOk <;> cases hdb : w.dbWriteOk <;> simp

theorem respostaStatus_ok_iff (o : HandlerOutcome) :
    respostaStatus o = some "ok" ↔
      (o ≠ HandlerOutcome.badRequest ∧ o ≠ HandlerOutcome.serverError) := by
  cases o <;> simp [respostaStatus]

theorem temPhone_objeto (fields : List (String × Py)) :
    temPhone (some (Py.dict fields)) = pyTruthy (payloadDe fields).phone :=
  rfl

theorem fromMeAtivo_objeto (fields : List (String × Py)) :
    fromMeAtivo (some (Py.dict fields)) =
      pyTruthy (payloadDe fields).fromMe :=
  rfl

/-- C8 counterexample: two requests that do not lack the phone field in the
claimed way (one carries a truthy phone, the other does not even get a 400)
yet fail to receive the `{status: ok}` acknowledgment — a `fromMe` event
whose snooze-branch database call fails (those calls are outside the `try`),
and a body parsing to a JSON array, on which `payload.get("phone")` at line
207 raises outside both `try` blocks. Both escape as unhandled server
errors. -/
theorem c8_fromMe_db_escapa :
    (temPhone (some corpoFromMe) = true ∧
     respostaStatus
       (receber_raw mundoDbQuebrado (some corpoFromMe)).response =
       Option.none ∧
     (receber_raw mundoDbQuebrado (some corpoFromMe)).response ≠
       HandlerOutcome.badRequest) ∧
    (respostaStatus (receber_raw mundoTexto (some corpoLista)).response =
       Option.none ∧
     (receber_raw mundoTexto (some corpoLista)).response ≠
       HandlerOutcome.badRequest) :=
  ⟨⟨rfl, rfl, by decide⟩, ⟨rfl, by decide⟩⟩

/-- C8 (amended): the handler answers 400 exactly when the body does not
parse as JSON or parses to an object without a truthy `phone`; it propagates
an unhandled server error exactly when the body parses to a non-object JSON
value (`payload.get("phone")` at line 207 raises outside both `try` blocks)
or a `fromMe` request hits a snooze-branch database failure; in every other
case — including all failures inside the main `try` block — it acknowledges
with `{status: "ok"}`. -/
theorem c8_ok_exceto_phone_e_500 (w : World) (body : Option Py) :
    ((receber_raw w body).response = HandlerOutcome.badRequest ↔
      (body = Option.none ∨
        (corpoObjeto body = true ∧ temPhone body = false))) ∧
    ((receber_raw w body).response = HandlerOutcome.serverError ↔
      ((body ≠ Option.none ∧ corpoObjeto body = false) ∨
       (temPhone body = true ∧ fromMeAtivo body = true ∧
         w.snoozeDbOk = false))) ∧
    (respostaStatus (receber_raw w body).response = some "ok" ↔
      ((receber_raw w body).response ≠ HandlerOutcome.badRequest ∧
       (receber_raw w body).response ≠ HandlerOutcome.serverError)) := by
  refine ⟨?_, ?_, respostaStatus_ok_iff _⟩ <;>
  · cases body with
    | none => simp [receber_raw, corpoObjeto, temPhone, fromMeAtivo]
    | some v =>
      cases v with
      | none => simp [receber_raw, corpoObjeto, temPhone, fromMeAtivo]
      | bool b => simp [receber_raw, corpoObjeto, temPhone, fromMeAtivo]
      | int n => simp [receber_raw, corpoObjeto, temPhone, fromMeAtivo]
      | str s => simp [receber_raw, corpoObjeto, temPhone, fromMeAtivo]
      | list xs => simp [receber_raw, corpoObjeto, temPhone, fromMeAtivo]
      | dict fields =>
        cases hph : pyTruthy (payloadDe fields).phone
        · simp [receber_raw, receber_mensagem_zapi, corpoObjeto,
            temPhone_objeto, fromMeAtivo_objeto, hph]
        · cases hfm : pyTruthy (payloadDe fields).fromMe
          · cases hct : pyTruthy (processarConteudo w (payloadDe fields))
            · simp [receber_raw, receber_mensagem_zapi, corpoObjeto,
                temPhone_objeto, fromMeAtivo_objeto, hph, hfm, hct]
            · cases hsz : snoozeAtivo w
              · cases htr : w.chatTransportOk <;> cases hdb : w.dbWriteOk <;>
                  simp [receber_raw, receber_mensagem_zapi, fluxoChat,
                    corpoObjeto, temPhone_objeto, fromMeAtivo_objeto, hph,
                    hfm, hct, hsz, htr, hdb]
              · simp [receber_raw, receber_mensagem_zapi, corpoObjeto,
                  temPhone_objeto, fromMeAtivo_objeto, hph, hfm, hct, hsz]
          · cases hdbs : w.snoozeDbOk <;>
              simp [receber_raw, receber_mensagem_zapi, fluxoFromMe,
                corpoObjeto, temPhone_objeto, fromMeAtivo_objeto, hph, hfm,
                hdbs]

/-- C8 (amended) applied: a healthy text exchange is acknowledged with
`{status: "ok"}`. -/
theorem c8_ok_exceto_phone_e_500_aplicado :
    respostaStatus
      (receber_raw mundoTexto (some corpoTexto)).response = some "ok" :=
  (c8_ok_exceto_phone_e_500 mundoTexto (some corpoTexto)).2.2.mpr
    ⟨by decide, by decide⟩

/-! ## Claim C9 -/

/-- C9: for an audio-only event that reaches processing, a download failure
makes the fixed download-failure placeholder the effective message and a
transcription failure makes the (textually different) fixed
transcription-failure placeholder the effective message; in both cases the AI
call still proceeds with that placeholder as the user content. -/
theorem c9_audio_placeholders (w : World) (p : Payload)
    (hph : pyTruthy p.phone = true) (hfm : pyTruthy p.fromMe = false)
    (htx : pyTruthy (dictGet p.text "message") = false)
    (hau : pyTruthy (dictGet p.audio "audioUrl") = true)
    (hsz : snoozeAtivo w = false) :
    (w.downloadResult = Option.none →
      (receber_mensagem_zapi w p).effective = Py.str erroDownload ∧
      (receber_mensagem_zapi w p).aiCalled = true ∧
      (receber_mensagem_zapi w p).chatMessage = some (Py.str erroDownload)) ∧
    (∀ bs, w.downloadResult = some bs → bs.isEmpty = false →
      w.transcript = Option.none →
      (receber_mensagem_zapi w p).effective = Py.str erroTranscricao ∧
      (receber_mensagem_zapi w p).aiCalled = true ∧
      (receber_mensagem_zapi w p).chatMessage =
        some (Py.str erroTranscricao)) ∧
    erroDownload ≠ erroTranscricao := by
  refine ⟨?_, ?_, by decide⟩
  · intro hdl
    have hpc : processarConteudo w p = Py.str erroDownload := by
      unfold processarConteudo
      simp [htx, hau, hdl]
    have hc : pyTruthy (processarConteudo w p) = true := by
      rw [hpc]
      rfl
    rw [receber_fluxoChat w p hph hfm hc hsz]
    exact ⟨by rw [fluxoChat_effective, hpc], fluxoChat_aiCalled w p _,
      by rw [fluxoChat_chatMessage, hpc]⟩
  · intro bs hdl hbs htc
    have hpc : processarConteudo w p = Py.str erroTranscricao := by
      unfold processarConteudo
      simp [htx, hau, hdl, hbs, htc]
    have hc : pyTruthy (processarConteudo w p) = true := by
      rw [hpc]
      rfl
    rw [receber_fluxoChat w p hph hfm hc hsz]
    exact ⟨by rw [fluxoChat_effective, hpc], fluxoChat_aiCalled w p _,
      by rw [fluxoChat_chatMessage, hpc]⟩

/-- C9 applied to a concrete failed download. -/
theorem c9_audio_placeholders_aplicado :
    (receber_mensagem_zapi mundoDownloadFalha cargaAudio).effective =
      Py.str erroDownload ∧
    (receber_mensagem_zapi mundoDownloadFalha cargaAudio).aiCalled = true ∧
    (receber_mensagem_zapi mundoDownloadFalha cargaAudio).chatMessage =
      some (Py.str erroDownload) :=
  (c9_audio_placeholders mundoDownloadFalha cargaAudio
    rfl rfl rfl rfl rfl).1 rfl

/-! ## Claim C10 -/

/-- C10: with both fields present, a truthy `text.message` takes precedence —
it becomes the effective message and the audio is neither downloaded nor
transcribed; an empty-string `text.message` counts as absent, so together with
no (truthy) audio the event ends in the ignored outcome with no session read,
no store change and no AI call. -/
theorem c10_texto_precede (w : World) (p : Payload)
    (hph : pyTruthy p.phone = true) (hfm : pyTruthy p.fromMe = false) :
    (pyTruthy (dictGet p.text "message") = true →
      (receber_mensagem_zapi w p).effective = dictGet p.text "message" ∧
      (receber_mensagem_zapi w p).downloadAttempted = false ∧
      (receber_mensagem_zapi w p).transcriptionAttempted = false) ∧
    (dictGet p.text "message" = Py.str "" →
      pyTruthy (dictGet p.audio "audioUrl") = false →
      (receber_mensagem_zapi w p).response = HandlerOutcome.ignorado ∧
      (receber_mensagem_zapi w p).sessionRead = false ∧
      (receber_mensagem_zapi w p).store = w.session ∧
      (receber_mensagem_zapi w p).aiCalled = false ∧
      (receber_mensagem_zapi w p).chatMessage = Option.none) := by
  constructor
  · intro ht
    have hpc : processarConteudo w p = dictGet p.text "message" := by
      unfold processarConteudo
      simp [ht]
    have hdla : tentouDownload p = false := by
      unfold tentouDownload
      simp [ht]
    have htca : tentouTranscricao w p = false := by
      unfold tentouTranscricao
      rw [hdla]
      simp
    have hc : pyTruthy (processarConteudo w p) = true := by
      rw [hpc]
      exact ht
    cases hsz : snoozeAtivo w
    · rw [receber_fluxoChat w p hph hfm hc hsz]
      exact ⟨by rw [fluxoChat_effective, hpc],
        by rw [fluxoChat_downloadAttempted, hdla],
        by rw [fluxoChat_transcriptionAttempted, htca]⟩
    · unfold receber_mensagem_zapi
      rw [hph, hfm]
      simp [hc, hsz, hpc, hdla, htca, ht]
  · intro h0 hau
    have hvazio : pyTruthy (Py.str "") = false := rfl
    have hpc : processarConteudo w p = Py.none := by
      unfold processarConteudo
      rw [h0]
      simp [hau, hvazio]
    have hc : pyTruthy (processarConteudo w p) = false := by
      rw [hpc]
      rfl
    unfold receber_mensagem_zapi
    rw [hph, hfm]
    simp [hc]

/-- C10 applied: precedence of concrete text, and the ignored outcome of a
concrete empty text. -/
theorem c10_texto_precede_aplicado :
    ((receber_mensagem_zapi mundoTexto cargaTexto).effective =
      dictGet cargaTexto.text "message" ∧
     (receber_mensagem_zapi mundoTexto cargaTexto).downloadAttempted =
      false ∧
     (receber_mensagem_zapi mundoTexto cargaTexto).transcriptionAttempted =
      false) ∧
    ((receber_mensagem_zapi mundoTexto cargaVazia).response =
      HandlerOutcome.ignorado ∧
     (receber_mensagem_zapi mundoTexto cargaVazia).sessionRead = false ∧
     (receber_mensagem_zapi mundoTexto cargaVazia).store =
      mundoTexto.session ∧
     (receber_mensagem_zapi mundoTexto cargaVazia).aiCalled = false ∧
     (receber_mensagem_zapi mundoTexto cargaVazia).chatMessage =
      Option.none) :=
  ⟨(c10_texto_precede mundoTexto cargaTexto rfl rfl).1 rfl,
   (c10_texto_precede mundoTexto cargaVazia rfl rfl).2 rfl rfl⟩

end WhatsappBot
